import Mathlib

/-!
The Python boundary layer of caffe (`python/caffe/_caffe.cpp`).

A shallow embedding of the array validator, the data-injection entry point, the
input-checked Net constructors, the zero-copy Blob exporter, `Blob.reshape` and
the exception translator, followed by the properties proved about them.

Conventions of the embedding.

* A C++ call either returns, throws `std::runtime_error(what)`, fails inside
  boost.python (a failed `bp::extract`, an index outside a tuple), or has
  undefined behaviour of which nothing more is said (an index outside
  `net->layers()`, a read of the leading dimension of an array without
  dimensions, a division by zero).  `Outcome` has one constructor for each.
* A read of `shape[i]` outside the `std::vector<int_tp>` passed to
  `CheckContiguousArray` is undefined behaviour as well, but the call goes on
  with the word found after the vector; that word is the parameter `past`.
* The native engine (Net, Blob, MemoryDataLayer) is not part of this file of the
  repository.  Calls into it are recorded, in order, in the `calls` of a `Run`.
* `int_tp` is declared in `caffe/definitions.hpp`: a signed integer type of
  64 bits under `USE_INDEX_64` and of 32 bits otherwise.  Its width is the
  parameter `bits`; `npy_intp` values are mathematical integers.
-/

namespace caffe

/-! ## Outcomes and recorded native calls -/

/-- The way a call of a C++ function of the boundary layer ends. -/
inductive Outcome (α : Type) where
  /-- normal return -/
  | returned (value : α)
  /-- `throw std::runtime_error(what)` -/
  | runtime_error (what : String)
  /-- an exception raised inside boost.python (a failed `bp::extract`, an index
  outside a tuple) -/
  | host_exception
  /-- undefined behaviour -/
  | undefined
  deriving DecidableEq

/-- The Memory-Input layer as the boundary layer sees it, through the accessors
`shape()`, `label_shape()` and `batch_size()` of `MemoryDataLayer`
(`caffe/layers/memory_data_layer.hpp`). -/
structure MemoryDataLayer where
  shape : List Int
  label_shape : List Int
  batch_size : Int
  deriving DecidableEq

/-- A call from the boundary layer into the native engine. -/
inductive NativeCall where
  /-- `new Net<Dtype>(param_file, static_cast<Phase>(phase), device)` -/
  | Net_ctor (param_file : String) (phase : Int)
  /-- `net->CopyTrainedLayersFrom(pretrained_param_file)` -/
  | CopyTrainedLayersFrom (pretrained_param_file : String)
  /-- `md_layer->Reset(data, labels, n)` -/
  | Reset (md_layer : MemoryDataLayer) (data labels : Nat) (n : Int)
  /-- `self->Reshape(shape)` on the Blob with the given address -/
  | Reshape (self : Nat) (shape : List Int)
  deriving DecidableEq

/-- A run of a boundary function: the native calls it made, in order, and how it
ended. -/
structure Run (α : Type) where
  calls : List NativeCall
  result : Outcome α
  deriving DecidableEq

/-! ## Machine integers and numpy constants -/

/-- The conversion `static_cast<int_tp>(x)` of an integer to the signed
two's-complement type `int_tp` of `bits` bits. -/
def cast_int_tp (bits : Nat) (x : Int) : Int :=
  Int.bmod x (2 ^ bits)

/-- The text `std::to_string` gives for an integer: decimal, with a leading
minus sign when negative. -/
def to_string (x : Int) : String :=
  toString x

/-- The numpy flag bit `NPY_ARRAY_C_CONTIGUOUS`. -/
def NPY_ARRAY_C_CONTIGUOUS : Nat := 1

/-- The numpy type number `NPY_FLOAT32`. -/
def NPY_FLOAT32 : Int := 11

/-- The constant `NPY_DTYPE` of the file. -/
def NPY_DTYPE : Int := NPY_FLOAT32

/-- A numpy array object as the boundary layer reads it: `PyArray_FLAGS`,
`PyArray_TYPE`, `PyArray_DIMS` (whose length is `PyArray_NDIM`), `PyArray_DATA`
and `PyArray_BASE` (the handle of the base object, if any). -/
structure PyArrayObject where
  flags : Nat
  type_num : Int
  dims : List Int
  data : Nat
  base : Option Nat
  deriving DecidableEq

/-- The macro `PyArray_NDIM`. -/
def PyArray_NDIM (arr : PyArrayObject) : Nat := arr.dims.length

/-! ## CheckContiguousArray -/

/-- The text of the shape error of `CheckContiguousArray` for index `i`, array
extent `d` and expected extent `e`. -/
def shape_error (bits : Nat) (i : Nat) (d e : Int) : String :=
  "Shape dimension " ++ to_string (Int.ofNat i) ++ " has wrong size ("
    ++ to_string (cast_int_tp bits d) ++ " vs. " ++ to_string e ++ ")"

/-- The value the expression `shape[i]` has on a `std::vector<int_tp>`.  Inside
the vector it is the element.  `operator[]` makes no bounds check: outside the
vector the read is undefined behaviour in C++, and the compiled code takes the
word it finds after the storage of the vector, for which `past i` stands. -/
def vector_at (past : Nat → Int) (shape : List Int) (i : Nat) : Int :=
  match shape[i]? with
  | some e => e
  | none => past i

/-- The loop `for (int_tp i = 1; i < PyArray_NDIM(arr); ++i)` of
`CheckContiguousArray`, with `remaining` iterations left before `i` reaches the
number of dimensions.  Nothing bounds `i` by the size of `shape`. -/
def CheckContiguousArray.loop (bits : Nat) (past : Nat → Int) (dims shape : List Int) :
    (remaining : Nat) → (i : Nat) → Outcome Unit
  | 0, _ => Outcome.returned ()
  | remaining + 1, i =>
    match dims[i]? with
    | some d =>
      if d ≠ vector_at past shape i then
        Outcome.runtime_error (shape_error bits i d (vector_at past shape i))
      else CheckContiguousArray.loop bits past dims shape remaining (i + 1)
    | none => Outcome.undefined

/-- The function `CheckContiguousArray(arr, name, shape)`; `past` gives the words
after the storage of `shape`. -/
def CheckContiguousArray (bits : Nat) (past : Nat → Int) (arr : PyArrayObject)
    (name : String) (shape : List Int) : Outcome Unit :=
  if arr.flags &&& NPY_ARRAY_C_CONTIGUOUS = 0 then
    Outcome.runtime_error (name ++ " must be C contiguous")
  else if arr.type_num ≠ NPY_FLOAT32 then
    Outcome.runtime_error (name ++ " must be float32")
  else
    CheckContiguousArray.loop bits past arr.dims shape (PyArray_NDIM arr - 1) 1

/-! ## CheckFile and the Net constructors -/

/-- The function `CheckFile(filename)`; `good filename` is what `f.good()` gives
on the stream opened on `filename`. -/
def CheckFile (good : String → Bool) (filename : String) : Outcome Unit :=
  if !good filename then
    Outcome.runtime_error ("Could not open file " ++ filename)
  else
    Outcome.returned ()

/-- The function `Net_Init(param_file, phase)`.  `construct` is the native
constructor `Net<Dtype>(param_file, phase, default device)`, which parses the
definition file. -/
def Net_Init {ν : Type} (good : String → Bool) (construct : String → Int → Outcome ν)
    (param_file : String) (phase : Int) : Run ν :=
  match CheckFile good param_file with
  | Outcome.returned () =>
    ⟨[NativeCall.Net_ctor param_file phase], construct param_file phase⟩
  | Outcome.runtime_error what => ⟨[], Outcome.runtime_error what⟩
  | Outcome.host_exception => ⟨[], Outcome.host_exception⟩
  | Outcome.undefined => ⟨[], Outcome.undefined⟩

/-- The function `Net_Init_Load(param_file, pretrained_param_file, phase)`.
`copy_trained` is the native `Net::CopyTrainedLayersFrom`. -/
def Net_Init_Load {ν : Type} (good : String → Bool)
    (construct : String → Int → Outcome ν) (copy_trained : ν → String → Outcome ν)
    (param_file pretrained_param_file : String) (phase : Int) : Run ν :=
  match CheckFile good param_file with
  | Outcome.returned () =>
    match CheckFile good pretrained_param_file with
    | Outcome.returned () =>
      match construct param_file phase with
      | Outcome.returned net =>
        ⟨[NativeCall.Net_ctor param_file phase,
          NativeCall.CopyTrainedLayersFrom pretrained_param_file],
         copy_trained net pretrained_param_file⟩
      | Outcome.runtime_error what =>
        ⟨[NativeCall.Net_ctor param_file phase], Outcome.runtime_error what⟩
      | Outcome.host_exception =>
        ⟨[NativeCall.Net_ctor param_file phase], Outcome.host_exception⟩
      | Outcome.undefined => ⟨[NativeCall.Net_ctor param_file phase], Outcome.undefined⟩
    | Outcome.runtime_error what => ⟨[], Outcome.runtime_error what⟩
    | Outcome.host_exception => ⟨[], Outcome.host_exception⟩
    | Outcome.undefined => ⟨[], Outcome.undefined⟩
  | Outcome.runtime_error what => ⟨[], Outcome.runtime_error what⟩
  | Outcome.host_exception => ⟨[], Outcome.host_exception⟩
  | Outcome.undefined => ⟨[], Outcome.undefined⟩

/-! ## Net_SetInputArrays -/

/-- A layer of a net: a `MemoryDataLayer`, or a layer of any other type. -/
inductive Layer where
  | memory_data (md : MemoryDataLayer)
  | other
  deriving DecidableEq

/-- A net as the boundary layer reads it: the vector `net->layers()`. -/
structure Net where
  layers : List Layer
  deriving DecidableEq

/-- The element access `net->layers()[index]` with an `int` index; `none` when
the index is outside the vector. -/
def layers_at (net : Net) (index : Int) : Option Layer :=
  if 0 ≤ index then net.layers[index.toNat]? else none

/-- The function `Net_SetInputArrays(net, index, data_obj, labels_obj)`; the two
objects are numpy arrays, as the `reinterpret_cast`s take them to be.  The
operator `%` of C++ truncates towards zero.  `past_data` and `past_labels` give
the words after the storage of the two vectors `md_layer->shape()` and
`md_layer->label_shape()`. -/
def Net_SetInputArrays (bits : Nat) (past_data past_labels : Nat → Int) (net : Net)
    (index : Int) (data_arr labels_arr : PyArrayObject) : Run Unit :=
  match layers_at net index with
  | none => ⟨[], Outcome.undefined⟩
  | some Layer.other =>
    ⟨[], Outcome.runtime_error
      ("set_input_arrays may only be called if the" ++ " first layer is a MemoryDataLayer")⟩
  | some (Layer.memory_data md_layer) =>
    match CheckContiguousArray bits past_data data_arr "data array" md_layer.shape with
    | Outcome.returned () =>
      match CheckContiguousArray bits past_labels labels_arr "labels array"
          md_layer.label_shape with
      | Outcome.returned () =>
        match data_arr.dims[0]?, labels_arr.dims[0]? with
        | some n, some m =>
          if n ≠ m then
            ⟨[], Outcome.runtime_error
              ("data and labels must have the same first" ++ " dimension")⟩
          else if md_layer.batch_size = 0 then ⟨[], Outcome.undefined⟩
          else if Int.tmod n md_layer.batch_size ≠ 0 then
            ⟨[], Outcome.runtime_error
              ("first dimensions of input arrays must be a" ++ " multiple of batch size")⟩
          else
            ⟨[NativeCall.Reset md_layer data_arr.data labels_arr.data n],
             Outcome.returned ()⟩
        | _, _ => ⟨[], Outcome.undefined⟩
      | failure => ⟨[], failure⟩
    | failure => ⟨[], failure⟩

/-- The function `Net_SetLayerInputArrays(net, layer, data_obj, labels_obj)`.
`layer` is the object behind the handle passed for the `Layer<Dtype>*`
parameter, `none` for a null pointer.  The C-style cast to
`MemoryDataLayer<Dtype>*` tests nothing: the members of `MemoryDataLayer` are
then used on whatever the pointer holds, which is undefined for a layer of
another type.  The parameter `net` is not used. -/
def Net_SetLayerInputArrays (bits : Nat) (past_data past_labels : Nat → Int) (_net : Net)
    (layer : Option Layer) (data_arr labels_arr : PyArrayObject) : Run Unit :=
  match layer with
  | some (Layer.memory_data md_layer) =>
    match CheckContiguousArray bits past_data data_arr "data array" md_layer.shape with
    | Outcome.returned () =>
      match CheckContiguousArray bits past_labels labels_arr "labels array"
          md_layer.label_shape with
      | Outcome.returned () =>
        match data_arr.dims[0]?, labels_arr.dims[0]? with
        | some n, some m =>
          if n ≠ m then
            ⟨[], Outcome.runtime_error
              ("data and labels must have the same first" ++ " dimension")⟩
          else if md_layer.batch_size = 0 then ⟨[], Outcome.undefined⟩
          else if Int.tmod n md_layer.batch_size ≠ 0 then
            ⟨[], Outcome.runtime_error
              ("first dimensions of input arrays must be a" ++ " multiple of batch size")⟩
          else
            ⟨[NativeCall.Reset md_layer data_arr.data labels_arr.data n],
             Outcome.returned ()⟩
        | _, _ => ⟨[], Outcome.undefined⟩
      | failure => ⟨[], failure⟩
    | failure => ⟨[], failure⟩
  | _ => ⟨[], Outcome.undefined⟩

/-! ## The host heap and the zero-copy exporter -/

/-- Modelled from the spec: the Tensor (`Blob`, whose header `caffe/blob.hpp` is
not among the sources), "a dense N-dimensional numeric buffer with two logical
views, data and diff, identical shape".  `addr` is the address of the native
object, `shape` its per-axis extents, and the two other fields are the pointers
the accessors `mutable_cpu_data()` and `mutable_cpu_diff()` return. -/
structure Blob where
  addr : Nat
  shape : List Int
  mutable_cpu_data : Nat
  mutable_cpu_diff : Nat
  deriving DecidableEq

/-- Modelled from the spec: `Blob::num_axes()`, the number of axes of the
Tensor's shape. -/
def Blob.num_axes (b : Blob) : Nat := b.shape.length

/-- Modelled from the spec: a successful `Blob::Reshape(shape)`: "shape is
mutable only through an explicit reshape", which "may reallocate"; the Tensor
has the new shape and the buffers are where the engine put them. -/
def Blob.Reshape (b : Blob) (shape : List Int) (data diff : Nat) : Blob :=
  { b with shape := shape, mutable_cpu_data := data, mutable_cpu_diff := diff }

/-- What a host object is: a numpy array, the host handle of a Blob, or
something else. -/
inductive PyKind where
  | ndarray (arr : PyArrayObject)
  | blob (b : Blob)
  | other
  deriving DecidableEq

/-- A host object with its reference count. -/
structure PyObject where
  ob_refcnt : Nat
  kind : PyKind
  deriving DecidableEq

/-- The host heap: the objects by handle.  A new object takes the next handle; a
deallocated object keeps its handle, with reference count 0. -/
structure Heap where
  objs : List PyObject
  deriving DecidableEq

/-- The reference count of the object with handle `o` (0 when there is none). -/
def Heap.refcnt (heap : Heap) (o : Nat) : Nat :=
  match heap.objs[o]? with
  | some ob => ob.ob_refcnt
  | none => 0

/-- The macro `Py_INCREF`. -/
def Py_INCREF (heap : Heap) (o : Nat) : Heap :=
  match heap.objs[o]? with
  | some ob => ⟨heap.objs.set o { ob with ob_refcnt := ob.ob_refcnt + 1 }⟩
  | none => heap

/-- The macro `Py_DECREF`: the count goes down by one, and an object whose count
reaches zero is deallocated; a deallocated array releases its base object in
turn, which takes one unit of `fuel`. -/
def Py_DECREF_fuel : (fuel : Nat) → Heap → Nat → Heap
  | 0, heap, o =>
    match heap.objs[o]? with
    | some ob => ⟨heap.objs.set o { ob with ob_refcnt := ob.ob_refcnt - 1 }⟩
    | none => heap
  | fuel + 1, heap, o =>
    match heap.objs[o]? with
    | some ob =>
      if ob.ob_refcnt ≤ 1 then
        match ob.kind with
        | PyKind.ndarray arr =>
          match arr.base with
          | some b => Py_DECREF_fuel fuel ⟨heap.objs.set o { ob with ob_refcnt := 0 }⟩ b
          | none => ⟨heap.objs.set o { ob with ob_refcnt := 0 }⟩
        | _ => ⟨heap.objs.set o { ob with ob_refcnt := 0 }⟩
      else ⟨heap.objs.set o { ob with ob_refcnt := ob.ob_refcnt - 1 }⟩
    | none => heap

/-- The macro `Py_DECREF`, with fuel for a chain of bases through every object
of the heap. -/
def Py_DECREF (heap : Heap) (o : Nat) : Heap :=
  Py_DECREF_fuel (heap.objs.length + 1) heap o

/-- The numpy flags `NPY_ARRAY_CARRAY` that `PyArray_SimpleNewFromData` asks
for: C-contiguous, aligned, writeable, and not owning its data. -/
def NPY_ARRAY_CARRAY : Nat := 0x0501

/-- The numpy call `PyArray_SimpleNewFromData(nd, dims, typenum, data)`: a new
array object, holding one reference, over the memory at `data`, with the first
`nd` entries of `dims` as its dimensions and no base object.  Reading more
entries than `dims` holds is undefined. -/
def PyArray_SimpleNewFromData (heap : Heap) (nd : Nat) (dims : List Int) (typenum : Int)
    (data : Nat) : Option (Heap × Nat) :=
  if nd ≤ dims.length then
    some (⟨heap.objs ++ [⟨1, PyKind.ndarray ⟨NPY_ARRAY_CARRAY, typenum, dims.take nd, data, none⟩⟩]⟩,
      heap.objs.length)
  else none

/-- The numpy call `PyArray_SetBaseObject(arr, obj)`, which takes over the
caller's reference to `obj`. -/
def PyArray_SetBaseObject (heap : Heap) (arr obj : Nat) : Heap :=
  match heap.objs[arr]? with
  | some ⟨n, PyKind.ndarray a⟩ =>
    ⟨heap.objs.set arr ⟨n, PyKind.ndarray { a with base := some obj }⟩⟩
  | _ => heap

/-- The result converter `NdarrayConverterGenerator::apply<Dtype*>::type`:
"Just store the data pointer, and add the shape information in postcall." -/
def NdarrayConverterGenerator.convert (heap : Heap) (data : Nat) : Option (Heap × Nat) :=
  PyArray_SimpleNewFromData heap 0 [] NPY_DTYPE data

/-- The member `NdarrayCallPolicies::postcall(pyargs, result)`.  `pyargs` is the
argument tuple, as the handles of its items; the local `bp::object pyblob` owns
a reference to the Blob handle from its construction to the return.  (The
extracted `shared_ptr` is released before the return as well and leaves every
count as it found it.) -/
def NdarrayCallPolicies.postcall (heap : Heap) (pyargs : List Nat) (result : Nat) :
    Heap × Outcome Nat :=
  match pyargs[0]? with
  | none => (heap, Outcome.host_exception)
  | some pyblob =>
    let heap1 := Py_INCREF heap pyblob
    match heap1.objs[pyblob]? with
    | some ⟨_, PyKind.blob blob⟩ =>
      match heap1.objs[result]? with
      | some ⟨_, PyKind.ndarray res⟩ =>
        let data := res.data
        let heap2 := Py_DECREF heap1 result
        let num_axes := blob.num_axes
        let dims := blob.shape
        match PyArray_SimpleNewFromData heap2 num_axes dims NPY_FLOAT32 data with
        | some (heap3, arr_obj) =>
          let heap4 := Py_INCREF heap3 pyblob
          let heap5 := PyArray_SetBaseObject heap4 arr_obj pyblob
          (Py_DECREF heap5 pyblob, Outcome.returned arr_obj)
        | none => (Py_DECREF heap2 pyblob, Outcome.undefined)
      | _ => (Py_DECREF heap1 pyblob, Outcome.undefined)
    | _ => (Py_DECREF heap1 pyblob, Outcome.host_exception)

/-- A property made by `bp::make_function(accessor, NdarrayCallPolicies())`: the
accessor is called on the Blob of the first argument, its pointer goes through
the result converter, and `postcall` finishes the result. -/
def Blob_property (accessor : Blob → Nat) (heap : Heap) (pyargs : List Nat) :
    Heap × Outcome Nat :=
  match pyargs[0]? with
  | none => (heap, Outcome.host_exception)
  | some pyself =>
    match (heap.objs[pyself]? : Option PyObject) with
    | some ⟨_, PyKind.blob blob⟩ =>
      match NdarrayConverterGenerator.convert heap (accessor blob) with
      | some (heap1, result) => NdarrayCallPolicies.postcall heap1 pyargs result
      | none => (heap, Outcome.undefined)
    | _ => (heap, Outcome.host_exception)

/-- The property `Blob.data`. -/
def Blob_data (heap : Heap) (pyargs : List Nat) : Heap × Outcome Nat :=
  Blob_property Blob.mutable_cpu_data heap pyargs

/-- The property `Blob.diff`. -/
def Blob_diff (heap : Heap) (pyargs : List Nat) : Heap × Outcome Nat :=
  Blob_property Blob.mutable_cpu_diff heap pyargs

/-! ## Blob_Reshape -/

/-- The loop `for (int_tp i = 1; i < bp::len(args); ++i)` of `Blob_Reshape`,
which stores `bp::extract<int_tp>(args[i])` in `shape[i - 1]`. -/
def Blob_Reshape.loop {π : Type} (extract_int_tp : π → Option Int) (args : List π) :
    (remaining : Nat) → (i : Nat) → (shape : List Int) → Outcome (List Int)
  | 0, _, shape => Outcome.returned shape
  | remaining + 1, i, shape =>
    match args[i]? with
    | none => Outcome.host_exception
    | some a =>
      match extract_int_tp a with
      | none => Outcome.host_exception
      | some d =>
        if i - 1 < shape.length then
          Blob_Reshape.loop extract_int_tp args remaining (i + 1) (shape.set (i - 1) d)
        else Outcome.undefined

/-- The function `Blob_Reshape(args, kwargs)`.  The conversions
`bp::extract<Blob<Dtype>*>` (to the address of the Blob) and
`bp::extract<int_tp>` of boost.python, and the native `Blob::Reshape`, are
parameters. -/
def Blob_Reshape {π : Type} (extract_blob : π → Option Nat)
    (extract_int_tp : π → Option Int) (reshape : Nat → List Int → Outcome Unit)
    (args : List π) (kwargs : List (String × π)) : Run Unit :=
  if kwargs.length > 0 then
    ⟨[], Outcome.runtime_error "Blob.reshape takes no kwargs"⟩
  else
    match args[0]? with
    | none => ⟨[], Outcome.host_exception⟩
    | some a0 =>
      match extract_blob a0 with
      | none => ⟨[], Outcome.host_exception⟩
      | some self =>
        match Blob_Reshape.loop extract_int_tp args (args.length - 1) 1
            (List.replicate (args.length - 1) 0) with
        | Outcome.returned shape => ⟨[NativeCall.Reshape self shape], reshape self shape⟩
        | Outcome.runtime_error what => ⟨[], Outcome.runtime_error what⟩
        | Outcome.host_exception => ⟨[], Outcome.host_exception⟩
        | Outcome.undefined => ⟨[], Outcome.undefined⟩

/-! ## The exception translator -/

/-- What the host can observe of a translated failure: the text written to the
standard output, and the error indicator of the interpreter (the message of the
pending host error, if one is set). -/
structure Host where
  stdout : String
  error_indicator : Option String
  deriving DecidableEq

/-- The function `exception_translator(std::exception ex)`, called with the
exception in flight, whose `what()` is `thrown_what`.  The parameter is taken by
value: `ex` is a `std::exception` copy-constructed from the exception in flight,
and `sliced_what` gives the `what()` of such a copy. -/
def exception_translator (sliced_what : String → String) (thrown_what : String)
    (host : Host) : Host :=
  { host with stdout := host.stdout ++ sliced_what thrown_what ++ "\n" }

/-- The `what()` of a `std::exception` copied from a derived exception, with
libstdc++: the name of the base class, whatever the message was. -/
def libstdcxx_sliced_what : String → String :=
  fun _ => "std::exception"

/-! ## Sample inputs -/

/-- A file system in which, of all files, only `deploy.prototxt` can be opened. -/
def only_deploy_opens (filename : String) : Bool :=
  filename == "deploy.prototxt"

/-! ## Properties of CheckContiguousArray -/

/-- Inside the vector, `shape[i]` is the element. -/
theorem vector_at_of_getElem? (past : Nat → Int) (shape : List Int) (i : Nat) (e : Int)
    (h : shape[i]? = some e) : vector_at past shape i = e := by
  simp only [vector_at, h]

/-- Outside the vector, `shape[i]` is the word found there. -/
theorem vector_at_of_length_le (past : Nat → Int) (shape : List Int) (i : Nat)
    (h : shape.length ≤ i) : vector_at past shape i = past i := by
  simp only [vector_at, List.getElem?_eq_none h]

/-- The loop of `CheckContiguousArray` returns exactly when, at every index it
visits, the value read as `shape[i]` is the extent the array has there. -/
theorem CheckContiguousArray.loop_returned_iff (bits : Nat) (past : Nat → Int)
    (dims shape : List Int) :
    ∀ (remaining i : Nat), i + remaining ≤ dims.length →
      (CheckContiguousArray.loop bits past dims shape remaining i = Outcome.returned () ↔
        ∀ j, i ≤ j → j < i + remaining → some (vector_at past shape j) = dims[j]?) := by
  intro remaining
  induction remaining with
  | zero =>
    intro i _
    simp only [CheckContiguousArray.loop, true_iff]
    intro j h1 h2
    omega
  | succ r ih =>
    intro i hi
    have hlt : i < dims.length := by omega
    have hd : dims[i]? = some dims[i] := List.getElem?_eq_getElem hlt
    by_cases hde : dims[i] = vector_at past shape i
    · have hrec := ih (i + 1) (by omega)
      simp only [CheckContiguousArray.loop, hd, ne_eq, hde, not_true_eq_false, if_false]
      rw [hrec]
      constructor
      · intro h j h1 h2
        by_cases hji : j = i
        · subst hji; rw [hd, hde]
        · exact h j (by omega) (by omega)
      · intro h j h1 h2
        exact h j (by omega) (by omega)
    · simp only [CheckContiguousArray.loop, hd, ne_eq, hde, not_false_eq_true, if_true]
      constructor
      · intro h; cases h
      · intro h
        have := h i (Nat.le_refl i) (by omega)
        rw [hd] at this
        exact absurd (Option.some.inj this).symm hde

/-- The loop of `CheckContiguousArray` throws the shape error of the first index
at which the value read as `shape[i]` differs from the extent of the array, when
the two agree at every index visited before. -/
theorem CheckContiguousArray.loop_runtime_error (bits : Nat) (past : Nat → Int)
    (dims shape : List Int) (k : Nat) (d : Int) (hd : dims[k]? = some d)
    (hne : d ≠ vector_at past shape k) :
    ∀ (remaining i : Nat), i ≤ k → k < i + remaining →
      (∀ j, i ≤ j → j < k → some (vector_at past shape j) = dims[j]?) →
      CheckContiguousArray.loop bits past dims shape remaining i
        = Outcome.runtime_error (shape_error bits k d (vector_at past shape k)) := by
  intro remaining
  induction remaining with
  | zero => intro i h1 h2; omega
  | succ r ih =>
    intro i h1 h2 hmin
    by_cases hik : i = k
    · subst hik
      simp only [CheckContiguousArray.loop, hd, ne_eq, hne, not_false_eq_true, if_true]
    · have hlt : i < k := by omega
      have hkl : k < dims.length := by
        rcases Nat.lt_or_ge k dims.length with h | h
        · exact h
        · rw [List.getElem?_eq_none h] at hd; cases hd
      have hil : i < dims.length := by omega
      have hdi : dims[i]? = some dims[i] := List.getElem?_eq_getElem hil
      have hsi : vector_at past shape i = dims[i] := by
        have := hmin i (Nat.le_refl i) hlt
        rw [hdi] at this
        exact Option.some.inj this
      simp only [CheckContiguousArray.loop, hdi, hsi, ne_eq, not_true_eq_false, if_false]
      exact ih (i + 1) (by omega) (by omega) (fun j hj1 hj2 => hmin j (by omega) hj2)

/-- `CheckContiguousArray` returns (throws nothing) if and only if the array has
the C-contiguous flag, its element type is float32, and at every index `i ≥ 1`
of the array the value read as `shape[i]`, inside the vector or after it, is the
extent the array has; index 0 takes no part. -/
theorem CheckContiguousArray_returned_iff (bits : Nat) (past : Nat → Int)
    (arr : PyArrayObject) (name : String) (shape : List Int) :
    CheckContiguousArray bits past arr name shape = Outcome.returned () ↔
      (arr.flags &&& NPY_ARRAY_C_CONTIGUOUS ≠ 0 ∧ arr.type_num = NPY_FLOAT32 ∧
        ∀ i, 1 ≤ i → i < PyArray_NDIM arr →
          some (vector_at past shape i) = arr.dims[i]?) := by
  unfold CheckContiguousArray
  by_cases hc : arr.flags &&& NPY_ARRAY_C_CONTIGUOUS = 0
  · simp [hc]
  · by_cases ht : arr.type_num = NPY_FLOAT32
    · simp only [hc, if_false, ht, ne_eq, not_true_eq_false, not_false_eq_true, true_and]
      by_cases hz : arr.dims.length = 0
      · simp only [PyArray_NDIM, hz, Nat.zero_sub, CheckContiguousArray.loop, true_iff]
        intro i h1 h2
        omega
      · rw [CheckContiguousArray.loop_returned_iff bits past arr.dims shape _ 1
          (by simp only [PyArray_NDIM]; omega)]
        simp only [PyArray_NDIM]
        constructor
        · intro h i h1 h2
          exact h i h1 (by omega)
        · intro h i h1 h2
          exact h i h1 (by omega)
    · simp [hc, ht]

/-- For an array with no more dimensions than the expected shape has entries,
every read of `shape[i]` is inside the vector, and `CheckContiguousArray` returns
if and only if the array has the C-contiguous flag, its element type is float32,
and at every index `i ≥ 1` of the array the expected shape has the extent the
array has. -/
theorem CheckContiguousArray_returned_iff_of_ndim_le (bits : Nat) (past : Nat → Int)
    (arr : PyArrayObject) (name : String) (shape : List Int)
    (hn : PyArray_NDIM arr ≤ shape.length) :
    CheckContiguousArray bits past arr name shape = Outcome.returned () ↔
      (arr.flags &&& NPY_ARRAY_C_CONTIGUOUS ≠ 0 ∧ arr.type_num = NPY_FLOAT32 ∧
        ∀ i, 1 ≤ i → i < PyArray_NDIM arr → shape[i]? = arr.dims[i]?) := by
  rw [CheckContiguousArray_returned_iff]
  have hin : ∀ i, i < PyArray_NDIM arr → vector_at past shape i = shape.getD i 0 ∧
      shape[i]? = some (shape.getD i 0) := by
    intro i hi
    have hs : shape[i]? = some shape[i] := List.getElem?_eq_getElem (by omega)
    have hg : shape.getD i 0 = shape[i] := by simp [List.getD, hs]
    rw [hg]
    exact ⟨vector_at_of_getElem? past shape i shape[i] hs, hs⟩
  constructor
  · rintro ⟨hc, ht, h⟩
    refine ⟨hc, ht, fun i h1 h2 => ?_⟩
    rw [← h i h1 h2, (hin i h2).1, (hin i h2).2]
  · rintro ⟨hc, ht, h⟩
    refine ⟨hc, ht, fun i h1 h2 => ?_⟩
    rw [← h i h1 h2, (hin i h2).1, (hin i h2).2]

/-- C1 does not hold of the code.  The array is C-contiguous, float32 and 2×0,
and the expected shape `[2]` has no extent at index 1; the loop reads `shape[1]`
after the vector all the same, finds the word 0 there, which is the extent of
the array at index 1, and `CheckContiguousArray` returns. -/
theorem CheckContiguousArray_returns_past_shape :
    ([2] : List Int)[1]? = none ∧
      ([2, 0] : List Int)[1]? ≠ ([2] : List Int)[1]? ∧
      (1 &&& NPY_ARRAY_C_CONTIGUOUS ≠ 0 ∧ (11 : Int) = NPY_FLOAT32) ∧
      CheckContiguousArray 64 (fun _ => 0) ⟨1, 11, [2, 0], 4096, none⟩ "data array" [2]
        = Outcome.returned () := by
  decide

/-- `static_cast<int_tp>` keeps every value that `int_tp` can hold. -/
theorem cast_int_tp_of_fits (bits : Nat) (x : Int) (hb : 0 < bits)
    (hlo : -(2 ^ (bits - 1)) ≤ x) (hhi : x < 2 ^ (bits - 1)) :
    cast_int_tp bits x = x := by
  obtain ⟨k, rfl⟩ : ∃ k, bits = k + 1 := ⟨bits - 1, by omega⟩
  simp only [Nat.add_sub_cancel] at hlo hhi
  unfold cast_int_tp
  have hp : (0 : Int) < 2 ^ k := by positivity
  have h2 : ((2 ^ (k + 1) : Nat) : Int) = 2 * 2 ^ k := by
    push_cast
    ring
  rw [Int.bmod_def, h2]
  have hhalf : ((2 : Int) * 2 ^ k + 1) / 2 = 2 ^ k := by omega
  rw [hhalf]
  by_cases hx : 0 ≤ x
  · have hm : x % (2 * 2 ^ k) = x := Int.emod_eq_of_lt hx (by omega)
    rw [hm, if_pos hhi]
  · have hm : x % (2 * 2 ^ k) = x + 2 * 2 ^ k := by
      have h3 : (x + 2 * 2 ^ k) % (2 * 2 ^ k) = x + 2 * 2 ^ k :=
        Int.emod_eq_of_lt (by omega) (by omega)
      rw [← h3, Int.add_emod_self]
    rw [hm, if_neg (by omega)]
    omega

/-- C5, as the claim states it, fails twice.  With a 32-bit `int_tp` the array
extent 4294967299 is a mismatch against the expected 3, yet the message renders
it, after `static_cast<int_tp>`, as "3".  And for a 2×3 array against the
expected shape `[2]`, which has no extent at index 1, the text after "vs." is
that of the word found after the vector, here 0, not that of an expected
extent; when that word is 3, no error is thrown at all. -/
theorem CheckContiguousArray_shape_error_counterexample :
    CheckContiguousArray 32 (fun _ => 0) ⟨1, 11, [1, 4294967299], 4096, none⟩ "data array"
          [1, 3]
        = Outcome.runtime_error "Shape dimension 1 has wrong size (3 vs. 3)" ∧
      to_string 4294967299 ≠ "3" ∧
      ([2] : List Int)[1]? = none ∧
      CheckContiguousArray 64 (fun _ => 0) ⟨1, 11, [2, 3], 4096, none⟩ "data array" [2]
        = Outcome.runtime_error "Shape dimension 1 has wrong size (3 vs. 0)" ∧
      CheckContiguousArray 64 (fun _ => 3) ⟨1, 11, [2, 3], 4096, none⟩ "data array" [2]
        = Outcome.returned () := by
  decide

/-- C5, amended.  For a C-contiguous float32 array and an index `i ≥ 1` at which
the array has extent `d` and the expected shape has a different extent `e`, while
at every smaller index `j ≥ 1` the expected shape has the array's extent,
`CheckContiguousArray` throws exactly "Shape dimension i has wrong size (a vs. b)"
with `a` the decimal text of `d` converted to `int_tp` and `b` the decimal text of
`e`; the conversion keeps `d` whenever `int_tp` can hold it. -/
theorem CheckContiguousArray_shape_error (bits : Nat) (past : Nat → Int) (arr : PyArrayObject)
    (name : String) (shape : List Int) (i : Nat) (d e : Int)
    (hc : arr.flags &&& NPY_ARRAY_C_CONTIGUOUS ≠ 0) (ht : arr.type_num = NPY_FLOAT32)
    (hi : 1 ≤ i) (hd : arr.dims[i]? = some d) (he : shape[i]? = some e) (hne : d ≠ e)
    (hmin : ∀ j, 1 ≤ j → j < i → shape[j]? = arr.dims[j]?) :
    CheckContiguousArray bits past arr name shape
        = Outcome.runtime_error
            ("Shape dimension " ++ to_string (Int.ofNat i) ++ " has wrong size ("
              ++ to_string (cast_int_tp bits d) ++ " vs. " ++ to_string e ++ ")") ∧
      (0 < bits → -(2 ^ (bits - 1)) ≤ d → d < 2 ^ (bits - 1) → cast_int_tp bits d = d) := by
  refine ⟨?_, fun hb hlo hhi => cast_int_tp_of_fits bits d hb hlo hhi⟩
  have hil : i < arr.dims.length := by
    rcases Nat.lt_or_ge i arr.dims.length with h | h
    · exact h
    · rw [List.getElem?_eq_none h] at hd; cases hd
  unfold CheckContiguousArray
  simp only [hc, if_false, ht, ne_eq, not_true_eq_false]
  have hve : vector_at past shape i = e := vector_at_of_getElem? past shape i e he
  have hmin1 : ∀ j, 1 ≤ j → j < i → some (vector_at past shape j) = arr.dims[j]? := by
    intro j h1 h2
    have hj : arr.dims[j]? = some arr.dims[j] := List.getElem?_eq_getElem (by omega)
    rw [vector_at_of_getElem? past shape j arr.dims[j] (by rw [hmin j h1 h2, hj]), hj]
  have := CheckContiguousArray.loop_runtime_error bits past arr.dims shape i d hd
    (by rw [hve]; exact hne) (PyArray_NDIM arr - 1) 1 hi
    (by simp only [PyArray_NDIM]; omega) hmin1
  rw [this, hve]
  rfl

/-- A use of the amended C5: a 4×5 array against the expected shape 2×3, with a
32-bit `int_tp`. -/
theorem CheckContiguousArray_shape_error_witness :
    (1 &&& NPY_ARRAY_C_CONTIGUOUS ≠ 0 ∧ (11 : Int) = NPY_FLOAT32 ∧
      ([4, 5] : List Int)[1]? = some 5 ∧ ([2, 3] : List Int)[1]? = some 3) ∧
    CheckContiguousArray 32 (fun _ => 0) ⟨1, 11, [4, 5], 4096, none⟩ "data array" [2, 3]
        = Outcome.runtime_error
            ("Shape dimension " ++ to_string (Int.ofNat 1) ++ " has wrong size ("
              ++ to_string (cast_int_tp 32 5) ++ " vs. " ++ to_string 3 ++ ")") ∧
    cast_int_tp 32 5 = 5 :=
  ⟨by decide,
   (CheckContiguousArray_shape_error 32 (fun _ => 0) ⟨1, 11, [4, 5], 4096, none⟩ "data array" [2, 3] 1 5 3
      (by decide) (by decide) (by decide) (by decide) (by decide) (by decide)
      (by intro j h1 h2; omega)).1,
   (CheckContiguousArray_shape_error 32 (fun _ => 0) ⟨1, 11, [4, 5], 4096, none⟩ "data array" [2, 3] 1 5 3
      (by decide) (by decide) (by decide) (by decide) (by decide) (by decide)
      (by intro j h1 h2; omega)).2 (by decide) (by decide) (by decide)⟩

/-! ## Properties of the Net constructors -/

/-- C6. `Net_Init` throws "Could not open file <path>" when the definition file
cannot be opened, and `Net_Init_Load` throws it, for the first of the two files
that cannot be opened, when the definition file or the pretrained-weights file
cannot be opened; in each case no native call is made: neither the Net
constructor nor `CopyTrainedLayersFrom`. -/
theorem Net_Init_checks_files_first {ν : Type} (good : String → Bool)
    (construct : String → Int → Outcome ν) (copy_trained : ν → String → Outcome ν)
    (param_file pretrained_param_file : String) (phase : Int) :
    (good param_file = false →
      Net_Init good construct param_file phase
        = ⟨[], Outcome.runtime_error ("Could not open file " ++ param_file)⟩) ∧
    (good param_file = false →
      Net_Init_Load good construct copy_trained param_file pretrained_param_file phase
        = ⟨[], Outcome.runtime_error ("Could not open file " ++ param_file)⟩) ∧
    (good param_file = true → good pretrained_param_file = false →
      Net_Init_Load good construct copy_trained param_file pretrained_param_file phase
        = ⟨[], Outcome.runtime_error ("Could not open file " ++ pretrained_param_file)⟩) := by
  refine ⟨?_, ?_, ?_⟩
  · intro h
    simp [Net_Init, CheckFile, h]
  · intro h
    simp [Net_Init_Load, CheckFile, h]
  · intro h1 h2
    simp [Net_Init_Load, CheckFile, h1, h2]

/-- A use of C6: of the files named, only `deploy.prototxt` can be opened. -/
theorem Net_Init_checks_files_first_witness :
    (only_deploy_opens "missing.prototxt" = false ∧
      only_deploy_opens "deploy.prototxt" = true ∧
      only_deploy_opens "weights.caffemodel" = false) ∧
    Net_Init only_deploy_opens (fun _ _ => Outcome.returned 0) "missing.prototxt" 1
      = ⟨[], Outcome.runtime_error ("Could not open file " ++ "missing.prototxt")⟩ ∧
    Net_Init_Load only_deploy_opens (fun _ _ => Outcome.returned 0)
        (fun n _ => Outcome.returned n) "missing.prototxt" "weights.caffemodel" 1
      = ⟨[], Outcome.runtime_error ("Could not open file " ++ "missing.prototxt")⟩ ∧
    Net_Init_Load only_deploy_opens (fun _ _ => Outcome.returned 0)
        (fun n _ => Outcome.returned n) "deploy.prototxt" "weights.caffemodel" 1
      = ⟨[], Outcome.runtime_error ("Could not open file " ++ "weights.caffemodel")⟩ :=
  ⟨by decide,
   (Net_Init_checks_files_first only_deploy_opens (fun _ _ => Outcome.returned 0)
      (fun n _ => Outcome.returned n) "missing.prototxt" "weights.caffemodel" 1).1
      (by decide),
   (Net_Init_checks_files_first only_deploy_opens (fun _ _ => Outcome.returned 0)
      (fun n _ => Outcome.returned n) "missing.prototxt" "weights.caffemodel" 1).2.1
      (by decide),
   (Net_Init_checks_files_first only_deploy_opens (fun _ _ => Outcome.returned 0)
      (fun n _ => Outcome.returned n) "deploy.prototxt" "weights.caffemodel" 1).2.2
      (by decide) (by decide)⟩

/-! ## Properties of Net_SetInputArrays -/

/-- When the check of the data array does not return, `Net_SetInputArrays` ends
as that check does, with no native call. -/
theorem Net_SetInputArrays_of_data_failure (bits : Nat) (past_data past_labels : Nat → Int) (net : Net) (index : Int)
    (data_arr labels_arr : PyArrayObject) (md : MemoryDataLayer)
    (hl : layers_at net index = some (Layer.memory_data md))
    (hd : CheckContiguousArray bits past_data data_arr "data array" md.shape ≠ Outcome.returned ()) :
    Net_SetInputArrays bits past_data past_labels net index data_arr labels_arr
      = ⟨[], CheckContiguousArray bits past_data data_arr "data array" md.shape⟩ := by
  unfold Net_SetInputArrays
  simp only [hl]

/-- When the check of the data array returns and that of the labels array does
not, `Net_SetInputArrays` ends as the check of the labels array does, with no
native call. -/
theorem Net_SetInputArrays_of_labels_failure (bits : Nat) (past_data past_labels : Nat → Int) (net : Net) (index : Int)
    (data_arr labels_arr : PyArrayObject) (md : MemoryDataLayer)
    (hl : layers_at net index = some (Layer.memory_data md))
    (hd : CheckContiguousArray bits past_data data_arr "data array" md.shape = Outcome.returned ())
    (hlab : CheckContiguousArray bits past_labels labels_arr "labels array" md.label_shape
      ≠ Outcome.returned ()) :
    Net_SetInputArrays bits past_data past_labels net index data_arr labels_arr
      = ⟨[], CheckContiguousArray bits past_labels labels_arr "labels array" md.label_shape⟩ := by
  unfold Net_SetInputArrays
  simp only [hl, hd]

/-- When both checks return and both arrays have a leading dimension,
`Net_SetInputArrays` goes on to compare the leading dimensions and to test the
batch size. -/
theorem Net_SetInputArrays_of_checked (bits : Nat) (past_data past_labels : Nat → Int) (net : Net) (index : Int)
    (data_arr labels_arr : PyArrayObject) (md : MemoryDataLayer) (n m : Int)
    (hl : layers_at net index = some (Layer.memory_data md))
    (hd : CheckContiguousArray bits past_data data_arr "data array" md.shape = Outcome.returned ())
    (hlab : CheckContiguousArray bits past_labels labels_arr "labels array" md.label_shape
      = Outcome.returned ())
    (hn : data_arr.dims[0]? = some n) (hm : labels_arr.dims[0]? = some m) :
    Net_SetInputArrays bits past_data past_labels net index data_arr labels_arr
      = if n ≠ m then
          ⟨[], Outcome.runtime_error "data and labels must have the same first dimension"⟩
        else if md.batch_size = 0 then ⟨[], Outcome.undefined⟩
        else if Int.tmod n md.batch_size ≠ 0 then
          ⟨[], Outcome.runtime_error
            "first dimensions of input arrays must be a multiple of batch size"⟩
        else ⟨[NativeCall.Reset md data_arr.data labels_arr.data n], Outcome.returned ()⟩ := by
  unfold Net_SetInputArrays
  simp only [hl, hd, hlab, hn, hm]
  rfl

/-- The two first tests of `CheckContiguousArray`: the flag, then the type. -/
theorem CheckContiguousArray_of_bad_flags (bits : Nat) (past : Nat → Int) (arr : PyArrayObject)
    (name : String) (shape : List Int) :
    (arr.flags &&& NPY_ARRAY_C_CONTIGUOUS = 0 →
      CheckContiguousArray bits past arr name shape
        = Outcome.runtime_error (name ++ " must be C contiguous")) ∧
    (arr.flags &&& NPY_ARRAY_C_CONTIGUOUS ≠ 0 → arr.type_num ≠ NPY_FLOAT32 →
      CheckContiguousArray bits past arr name shape
        = Outcome.runtime_error (name ++ " must be float32")) := by
  constructor
  · intro h
    simp [CheckContiguousArray, h]
  · intro h1 h2
    simp [CheckContiguousArray, h1, h2]

/-- C2, as the claim states it, fails: the labels array is not C-contiguous, the
target layer is a Memory-Input layer, and the error is neither of the two named
for either buffer, but the shape error of the data array, which is checked in
full before the labels array is looked at. -/
theorem Net_SetInputArrays_bad_labels_counterexample :
    layers_at ⟨[Layer.memory_data ⟨[2, 3], [2], 2⟩]⟩ 0
        = some (Layer.memory_data ⟨[2, 3], [2], 2⟩) ∧
      (0 : Nat) &&& NPY_ARRAY_C_CONTIGUOUS = 0 ∧
      Net_SetInputArrays 64 (fun _ => 0) (fun _ => 0) ⟨[Layer.memory_data ⟨[2, 3], [2], 2⟩]⟩ 0
          ⟨1, 11, [4, 5], 4096, none⟩ ⟨0, 11, [4], 8192, none⟩
        = ⟨[], Outcome.runtime_error "Shape dimension 1 has wrong size (5 vs. 3)"⟩ ∧
      "Shape dimension 1 has wrong size (5 vs. 3)" ≠ "data array must be C contiguous" ∧
      "Shape dimension 1 has wrong size (5 vs. 3)" ≠ "data array must be float32" ∧
      "Shape dimension 1 has wrong size (5 vs. 3)" ≠ "labels array must be C contiguous" ∧
      "Shape dimension 1 has wrong size (5 vs. 3)" ≠ "labels array must be float32" := by
  decide

/-- C2, amended.  When the target layer is a Memory-Input layer and the data
array or the labels array lacks the C-contiguous flag or is not float32,
`Net_SetInputArrays` makes no native call (`Reset` is not invoked) and does not
return.  It throws "data array must be C contiguous" or "data array must be
float32" when the data array is at fault; when the data array passes its own
check it throws "labels array must be C contiguous" or "labels array must be
float32"; and when the data array fails its own check in any way, the call ends
as that check does, the labels array unread. -/
theorem Net_SetInputArrays_rejects_bad_buffers (bits : Nat) (past_data past_labels : Nat → Int) (net : Net) (index : Int)
    (data_arr labels_arr : PyArrayObject) (md : MemoryDataLayer)
    (hl : layers_at net index = some (Layer.memory_data md))
    (hbad : data_arr.flags &&& NPY_ARRAY_C_CONTIGUOUS = 0 ∨ data_arr.type_num ≠ NPY_FLOAT32 ∨
      labels_arr.flags &&& NPY_ARRAY_C_CONTIGUOUS = 0 ∨ labels_arr.type_num ≠ NPY_FLOAT32) :
    (Net_SetInputArrays bits past_data past_labels net index data_arr labels_arr).calls = [] ∧
    (Net_SetInputArrays bits past_data past_labels net index data_arr labels_arr).result ≠ Outcome.returned () ∧
    (data_arr.flags &&& NPY_ARRAY_C_CONTIGUOUS = 0 →
      (Net_SetInputArrays bits past_data past_labels net index data_arr labels_arr).result
        = Outcome.runtime_error "data array must be C contiguous") ∧
    (data_arr.flags &&& NPY_ARRAY_C_CONTIGUOUS ≠ 0 → data_arr.type_num ≠ NPY_FLOAT32 →
      (Net_SetInputArrays bits past_data past_labels net index data_arr labels_arr).result
        = Outcome.runtime_error "data array must be float32") ∧
    (CheckContiguousArray bits past_data data_arr "data array" md.shape ≠ Outcome.returned () →
      (Net_SetInputArrays bits past_data past_labels net index data_arr labels_arr).result
        = CheckContiguousArray bits past_data data_arr "data array" md.shape) ∧
    (CheckContiguousArray bits past_data data_arr "data array" md.shape = Outcome.returned () →
      labels_arr.flags &&& NPY_ARRAY_C_CONTIGUOUS = 0 →
      (Net_SetInputArrays bits past_data past_labels net index data_arr labels_arr).result
        = Outcome.runtime_error "labels array must be C contiguous") ∧
    (CheckContiguousArray bits past_data data_arr "data array" md.shape = Outcome.returned () →
      labels_arr.flags &&& NPY_ARRAY_C_CONTIGUOUS ≠ 0 →
      labels_arr.type_num ≠ NPY_FLOAT32 →
      (Net_SetInputArrays bits past_data past_labels net index data_arr labels_arr).result
        = Outcome.runtime_error "labels array must be float32") := by
  have hdata := CheckContiguousArray_of_bad_flags bits past_data data_arr "data array" md.shape
  have hlabels := CheckContiguousArray_of_bad_flags bits past_labels labels_arr "labels array"
    md.label_shape
  by_cases hd : CheckContiguousArray bits past_data data_arr "data array" md.shape = Outcome.returned ()
  · have hdok := (CheckContiguousArray_returned_iff bits past_data data_arr "data array" md.shape).1 hd
    have hlbad : labels_arr.flags &&& NPY_ARRAY_C_CONTIGUOUS = 0 ∨
        labels_arr.type_num ≠ NPY_FLOAT32 := by
      rcases hbad with h | h | h | h
      · exact absurd h hdok.1
      · exact absurd hdok.2.1 h
      · exact Or.inl h
      · exact Or.inr h
    have hlab : CheckContiguousArray bits past_labels labels_arr "labels array" md.label_shape
        ≠ Outcome.returned () := by
      intro h
      have hlok := (CheckContiguousArray_returned_iff bits past_labels labels_arr "labels array"
        md.label_shape).1 h
      rcases hlbad with h' | h'
      · exact hlok.1 h'
      · exact h' hlok.2.1
    rw [Net_SetInputArrays_of_labels_failure bits past_data past_labels net index data_arr labels_arr md hl hd hlab]
    refine ⟨rfl, hlab, ?_, ?_, ?_, ?_, ?_⟩
    · intro h; exact absurd h hdok.1
    · intro _ h; exact absurd hdok.2.1 h
    · intro h; exact absurd hd h
    · intro _ h; exact hlabels.1 h
    · intro _ h1 h2; exact hlabels.2 h1 h2
  · rw [Net_SetInputArrays_of_data_failure bits past_data past_labels net index data_arr labels_arr md hl hd]
    refine ⟨rfl, hd, ?_, ?_, ?_, ?_, ?_⟩
    · intro h; exact hdata.1 h
    · intro h1 h2; exact hdata.2 h1 h2
    · intro _; rfl
    · intro h; exact absurd h hd
    · intro h; exact absurd h hd

/-- A use of the amended C2: a good 4×3 data array and a labels array that is
not C-contiguous. -/
theorem Net_SetInputArrays_rejects_bad_buffers_witness :
    (layers_at ⟨[Layer.memory_data ⟨[2, 3], [2], 2⟩]⟩ 0
        = some (Layer.memory_data ⟨[2, 3], [2], 2⟩) ∧
      (0 : Nat) &&& NPY_ARRAY_C_CONTIGUOUS = 0) ∧
    (Net_SetInputArrays 32 (fun _ => 0) (fun _ => 0) ⟨[Layer.memory_data ⟨[2, 3], [2], 2⟩]⟩ 0
      ⟨1, 11, [4, 3], 4096, none⟩ ⟨0, 11, [4], 8192, none⟩).calls = [] ∧
    (Net_SetInputArrays 32 (fun _ => 0) (fun _ => 0) ⟨[Layer.memory_data ⟨[2, 3], [2], 2⟩]⟩ 0
      ⟨1, 11, [4, 3], 4096, none⟩ ⟨0, 11, [4], 8192, none⟩).result
        = Outcome.runtime_error "labels array must be C contiguous" :=
  ⟨by decide,
   (Net_SetInputArrays_rejects_bad_buffers 32 (fun _ => 0) (fun _ => 0) ⟨[Layer.memory_data ⟨[2, 3], [2], 2⟩]⟩ 0
      ⟨1, 11, [4, 3], 4096, none⟩ ⟨0, 11, [4], 8192, none⟩ ⟨[2, 3], [2], 2⟩ (by decide)
      (Or.inr (Or.inr (Or.inl (by decide))))).1,
   (Net_SetInputArrays_rejects_bad_buffers 32 (fun _ => 0) (fun _ => 0) ⟨[Layer.memory_data ⟨[2, 3], [2], 2⟩]⟩ 0
      ⟨1, 11, [4, 3], 4096, none⟩ ⟨0, 11, [4], 8192, none⟩ ⟨[2, 3], [2], 2⟩ (by decide)
      (Or.inr (Or.inr (Or.inl (by decide))))).2.2.2.2.2.1 (by decide) (by decide)⟩

/-- C3. When the target layer is a Memory-Input layer, each array passes
`CheckContiguousArray` against the layer's data shape and label shape, and the
leading dimensions of the two arrays differ, `Net_SetInputArrays` throws "data
and labels must have the same first dimension" and makes no native call
(`Reset` is not invoked). -/
theorem Net_SetInputArrays_leading_mismatch (bits : Nat) (past_data past_labels : Nat → Int) (net : Net) (index : Int)
    (data_arr labels_arr : PyArrayObject) (md : MemoryDataLayer) (n m : Int)
    (hl : layers_at net index = some (Layer.memory_data md))
    (hd : CheckContiguousArray bits past_data data_arr "data array" md.shape = Outcome.returned ())
    (hlab : CheckContiguousArray bits past_labels labels_arr "labels array" md.label_shape
      = Outcome.returned ())
    (hn : data_arr.dims[0]? = some n) (hm : labels_arr.dims[0]? = some m) (hne : n ≠ m) :
    Net_SetInputArrays bits past_data past_labels net index data_arr labels_arr
      = ⟨[], Outcome.runtime_error "data and labels must have the same first dimension"⟩ := by
  rw [Net_SetInputArrays_of_checked bits past_data past_labels net index data_arr labels_arr md n m hl hd hlab hn hm,
    if_pos hne]

/-- A use of C3: four examples of data against six labels. -/
theorem Net_SetInputArrays_leading_mismatch_witness :
    (layers_at ⟨[Layer.memory_data ⟨[2, 3], [2], 2⟩]⟩ 0
        = some (Layer.memory_data ⟨[2, 3], [2], 2⟩) ∧
      CheckContiguousArray 32 (fun _ => 0) ⟨1, 11, [4, 3], 4096, none⟩ "data array" [2, 3]
        = Outcome.returned () ∧
      CheckContiguousArray 32 (fun _ => 0) ⟨1, 11, [6], 8192, none⟩ "labels array" [2]
        = Outcome.returned () ∧
      ([4, 3] : List Int)[0]? = some 4 ∧ ([6] : List Int)[0]? = some 6 ∧ (4 : Int) ≠ 6) ∧
    Net_SetInputArrays 32 (fun _ => 0) (fun _ => 0) ⟨[Layer.memory_data ⟨[2, 3], [2], 2⟩]⟩ 0
        ⟨1, 11, [4, 3], 4096, none⟩ ⟨1, 11, [6], 8192, none⟩
      = ⟨[], Outcome.runtime_error "data and labels must have the same first dimension"⟩ :=
  ⟨by decide,
   Net_SetInputArrays_leading_mismatch 32 (fun _ => 0) (fun _ => 0) ⟨[Layer.memory_data ⟨[2, 3], [2], 2⟩]⟩ 0
      ⟨1, 11, [4, 3], 4096, none⟩ ⟨1, 11, [6], 8192, none⟩ ⟨[2, 3], [2], 2⟩ 4 6
      (by decide) (by decide) (by decide) (by decide) (by decide) (by decide)⟩

/-- C4. When the target layer is a Memory-Input layer with positive batch size,
both arrays pass `CheckContiguousArray` and both have leading dimension `n`:
if `n` is not a multiple of the batch size, `Net_SetInputArrays` throws "first
dimensions of input arrays must be a multiple of batch size" and makes no native
call; if `n` is a multiple of the batch size (0 included), it returns, and its
one native call is `Reset` on the layer with the data pointer of the data array,
the data pointer of the labels array and `n`. -/
theorem Net_SetInputArrays_batch_size (bits : Nat) (past_data past_labels : Nat → Int) (net : Net) (index : Int)
    (data_arr labels_arr : PyArrayObject) (md : MemoryDataLayer) (n : Int)
    (hl : layers_at net index = some (Layer.memory_data md))
    (hd : CheckContiguousArray bits past_data data_arr "data array" md.shape = Outcome.returned ())
    (hlab : CheckContiguousArray bits past_labels labels_arr "labels array" md.label_shape
      = Outcome.returned ())
    (hn : data_arr.dims[0]? = some n) (hm : labels_arr.dims[0]? = some n)
    (hb : 0 < md.batch_size) :
    (¬ md.batch_size ∣ n →
      Net_SetInputArrays bits past_data past_labels net index data_arr labels_arr
        = ⟨[], Outcome.runtime_error
            "first dimensions of input arrays must be a multiple of batch size"⟩) ∧
    (md.batch_size ∣ n →
      Net_SetInputArrays bits past_data past_labels net index data_arr labels_arr
        = ⟨[NativeCall.Reset md data_arr.data labels_arr.data n], Outcome.returned ()⟩) := by
  rw [Net_SetInputArrays_of_checked bits past_data past_labels net index data_arr labels_arr md n n hl hd hlab hn hm]
  have hb0 : md.batch_size ≠ 0 := by omega
  simp only [ne_eq, not_true_eq_false, if_false, hb0]
  constructor
  · intro h
    have : Int.tmod n md.batch_size ≠ 0 := fun h0 => h (Int.dvd_of_tmod_eq_zero h0)
    rw [if_pos this]
  · intro h
    have : Int.tmod n md.batch_size = 0 := Int.tmod_eq_zero_of_dvd h
    rw [if_neg (not_not.mpr this)]

/-- A use of C4: batch size 2, with three examples (refused) and with four and
with none (accepted). -/
theorem Net_SetInputArrays_batch_size_witness :
    (layers_at ⟨[Layer.memory_data ⟨[2, 3], [2], 2⟩]⟩ 0
        = some (Layer.memory_data ⟨[2, 3], [2], 2⟩) ∧ (0 : Int) < 2 ∧
      ¬ (2 : Int) ∣ 3 ∧ (2 : Int) ∣ 4 ∧ (2 : Int) ∣ 0) ∧
    Net_SetInputArrays 32 (fun _ => 0) (fun _ => 0) ⟨[Layer.memory_data ⟨[2, 3], [2], 2⟩]⟩ 0
        ⟨1, 11, [3, 3], 4096, none⟩ ⟨1, 11, [3], 8192, none⟩
      = ⟨[], Outcome.runtime_error
          "first dimensions of input arrays must be a multiple of batch size"⟩ ∧
    Net_SetInputArrays 32 (fun _ => 0) (fun _ => 0) ⟨[Layer.memory_data ⟨[2, 3], [2], 2⟩]⟩ 0
        ⟨1, 11, [4, 3], 4096, none⟩ ⟨1, 11, [4], 8192, none⟩
      = ⟨[NativeCall.Reset ⟨[2, 3], [2], 2⟩ 4096 8192 4], Outcome.returned ()⟩ ∧
    Net_SetInputArrays 32 (fun _ => 0) (fun _ => 0) ⟨[Layer.memory_data ⟨[2, 3], [2], 2⟩]⟩ 0
        ⟨1, 11, [0, 3], 4096, none⟩ ⟨1, 11, [0], 8192, none⟩
      = ⟨[NativeCall.Reset ⟨[2, 3], [2], 2⟩ 4096 8192 0], Outcome.returned ()⟩ :=
  ⟨by decide,
   (Net_SetInputArrays_batch_size 32 (fun _ => 0) (fun _ => 0) ⟨[Layer.memory_data ⟨[2, 3], [2], 2⟩]⟩ 0
      ⟨1, 11, [3, 3], 4096, none⟩ ⟨1, 11, [3], 8192, none⟩ ⟨[2, 3], [2], 2⟩ 3
      (by decide) (by decide) (by decide) (by decide) (by decide) (by decide)).1 (by decide),
   (Net_SetInputArrays_batch_size 32 (fun _ => 0) (fun _ => 0) ⟨[Layer.memory_data ⟨[2, 3], [2], 2⟩]⟩ 0
      ⟨1, 11, [4, 3], 4096, none⟩ ⟨1, 11, [4], 8192, none⟩ ⟨[2, 3], [2], 2⟩ 4
      (by decide) (by decide) (by decide) (by decide) (by decide) (by decide)).2 (by decide),
   (Net_SetInputArrays_batch_size 32 (fun _ => 0) (fun _ => 0) ⟨[Layer.memory_data ⟨[2, 3], [2], 2⟩]⟩ 0
      ⟨1, 11, [0, 3], 4096, none⟩ ⟨1, 11, [0], 8192, none⟩ ⟨[2, 3], [2], 2⟩ 0
      (by decide) (by decide) (by decide) (by decide) (by decide) (by decide)).2 (by decide)⟩


/-! ## Properties of the exporter -/

/-- `Py_INCREF` on a handle of the heap. -/
theorem Py_INCREF_of_getElem? (heap : Heap) (o : Nat) (ob : PyObject)
    (h : heap.objs[o]? = some ob) :
    Py_INCREF heap o = ⟨heap.objs.set o ⟨ob.ob_refcnt + 1, ob.kind⟩⟩ := by
  simp only [Py_INCREF, h]

/-- `Py_DECREF` on an object that has another reference left. -/
theorem Py_DECREF_of_shared (heap : Heap) (o : Nat) (ob : PyObject)
    (h : heap.objs[o]? = some ob) (hc : 1 < ob.ob_refcnt) :
    Py_DECREF heap o = ⟨heap.objs.set o ⟨ob.ob_refcnt - 1, ob.kind⟩⟩ := by
  have hn : ¬ ob.ob_refcnt ≤ 1 := by omega
  simp only [Py_DECREF, Py_DECREF_fuel, h, hn, if_false]

/-- `Py_DECREF` on the last reference to an array without a base object. -/
theorem Py_DECREF_of_last_array (heap : Heap) (o c : Nat) (arr : PyArrayObject)
    (h : heap.objs[o]? = some ⟨c, PyKind.ndarray arr⟩) (hc : c ≤ 1)
    (hb : arr.base = none) :
    Py_DECREF heap o = ⟨heap.objs.set o ⟨0, PyKind.ndarray arr⟩⟩ := by
  simp only [Py_DECREF, Py_DECREF_fuel, h, hc, if_true, hb]

/-- The heap and the handle an export of a Blob leaves: the Blob handle with one
more reference, the temporary array released, and the view, which takes the
next handle after the temporary one. -/
theorem Blob_property_eq (accessor : Blob → Nat) (heap : Heap) (pyblob : Nat)
    (rest : List Nat) (n : Nat) (b : Blob)
    (h : heap.objs[pyblob]? = some ⟨n, PyKind.blob b⟩) :
    Blob_property accessor heap (pyblob :: rest)
      = (⟨heap.objs.set pyblob ⟨n + 1, PyKind.blob b⟩ ++
            [⟨0, PyKind.ndarray ⟨NPY_ARRAY_CARRAY, NPY_DTYPE, [], accessor b, none⟩⟩,
             ⟨1, PyKind.ndarray ⟨NPY_ARRAY_CARRAY, NPY_FLOAT32, b.shape, accessor b,
                some pyblob⟩⟩]⟩,
         Outcome.returned (heap.objs.length + 1)) := by
  have hlt : pyblob < heap.objs.length := by
    rcases Nat.lt_or_ge pyblob heap.objs.length with h' | h'
    · exact h'
    · rw [List.getElem?_eq_none h'] at h; cases h
  obtain ⟨objs⟩ := heap
  simp only at h hlt
  -- the result converter
  simp only [Blob_property, List.getElem?_cons_zero, h, NdarrayConverterGenerator.convert,
    PyArray_SimpleNewFromData, List.length_nil, Nat.le_refl, if_true, List.take_nil]
  -- postcall: the local `pyblob`
  have e1 : (objs ++ [(⟨1, PyKind.ndarray ⟨NPY_ARRAY_CARRAY, NPY_DTYPE, [], accessor b,
      none⟩⟩ : PyObject)])[pyblob]? = some ⟨n, PyKind.blob b⟩ := by
    rw [List.getElem?_append_left hlt, h]
  simp only [NdarrayCallPolicies.postcall, List.getElem?_cons_zero]
  rw [Py_INCREF_of_getElem? _ _ _ e1]
  simp only [List.set_append_left _ _ hlt]
  have e2 : (objs.set pyblob ⟨n + 1, PyKind.blob b⟩ ++
      [(⟨1, PyKind.ndarray ⟨NPY_ARRAY_CARRAY, NPY_DTYPE, [], accessor b,
      none⟩⟩ : PyObject)])[pyblob]? = some ⟨n + 1, PyKind.blob b⟩ := by
    rw [List.getElem?_append_left (by simpa using hlt), List.getElem?_set_self hlt]
  have e3 : (objs.set pyblob ⟨n + 1, PyKind.blob b⟩ ++
      [(⟨1, PyKind.ndarray ⟨NPY_ARRAY_CARRAY, NPY_DTYPE, [], accessor b,
      none⟩⟩ : PyObject)])[objs.length]?
        = some ⟨1, PyKind.ndarray ⟨NPY_ARRAY_CARRAY, NPY_DTYPE, [], accessor b, none⟩⟩ := by
    have := List.getElem?_concat_length (objs.set pyblob ⟨n + 1, PyKind.blob b⟩)
      (⟨1, PyKind.ndarray ⟨NPY_ARRAY_CARRAY, NPY_DTYPE, [], accessor b, none⟩⟩ : PyObject)
    rw [List.length_set] at this
    exact this
  simp only [e2, e3]
  rw [Py_DECREF_of_last_array _ _ _ _ e3 (Nat.le_refl 1) rfl]
  have hlen : (objs.set pyblob ⟨n + 1, PyKind.blob b⟩).length ≤ objs.length := by simp
  simp only [List.set_append_right _ _ hlen, List.length_set, Nat.sub_self, List.set_cons_zero,
    PyArray_SimpleNewFromData, Blob.num_axes, Nat.le_refl, if_true, List.take_length,
    List.length_append, List.length_singleton, List.append_assoc, List.singleton_append]
  -- the view, its base object, and the end of the local `pyblob`
  have e4 : (objs.set pyblob ⟨n + 1, PyKind.blob b⟩ ++
      [(⟨0, PyKind.ndarray ⟨NPY_ARRAY_CARRAY, NPY_DTYPE, [], accessor b, none⟩⟩ : PyObject),
       ⟨1, PyKind.ndarray ⟨NPY_ARRAY_CARRAY, NPY_FLOAT32, b.shape, accessor b, none⟩⟩])[pyblob]?
        = some ⟨n + 1, PyKind.blob b⟩ := by
    rw [List.getElem?_append_left (by simpa using hlt), List.getElem?_set_self hlt]
  rw [Py_INCREF_of_getElem? _ _ _ e4]
  have hlt1 : pyblob < (objs.set pyblob ⟨n + 1, PyKind.blob b⟩).length := by simpa using hlt
  simp only [List.set_append_left _ _ hlt1, List.set_set]
  have e5 : (objs.set pyblob ⟨n + 1 + 1, PyKind.blob b⟩ ++
      [(⟨0, PyKind.ndarray ⟨NPY_ARRAY_CARRAY, NPY_DTYPE, [], accessor b, none⟩⟩ : PyObject),
       ⟨1, PyKind.ndarray ⟨NPY_ARRAY_CARRAY, NPY_FLOAT32, b.shape, accessor b, none⟩⟩])[
          objs.length + 1]?
        = some ⟨1, PyKind.ndarray ⟨NPY_ARRAY_CARRAY, NPY_FLOAT32, b.shape, accessor b, none⟩⟩ := by
    rw [List.getElem?_append_right (by simp)]
    simp
  have hlen2 : (objs.set pyblob ⟨n + 1 + 1, PyKind.blob b⟩).length ≤ objs.length + 1 := by simp
  simp only [PyArray_SetBaseObject, e5, List.set_append_right _ _ hlen2, List.length_set,
    Nat.add_sub_cancel_left, List.set_cons_succ, List.set_cons_zero]
  have e6 : (objs.set pyblob ⟨n + 1 + 1, PyKind.blob b⟩ ++
      [(⟨0, PyKind.ndarray ⟨NPY_ARRAY_CARRAY, NPY_DTYPE, [], accessor b, none⟩⟩ : PyObject),
       ⟨1, PyKind.ndarray ⟨NPY_ARRAY_CARRAY, NPY_FLOAT32, b.shape, accessor b,
          some pyblob⟩⟩])[pyblob]?
        = some ⟨n + 1 + 1, PyKind.blob b⟩ := by
    rw [List.getElem?_append_left (by simpa using hlt), List.getElem?_set_self hlt]
  rw [Py_DECREF_of_shared _ _ _ e6 (by simp)]
  have hlt2 : pyblob < (objs.set pyblob ⟨n + 1 + 1, PyKind.blob b⟩).length := by simpa using hlt
  simp only [List.set_append_left _ _ hlt2, List.set_set, Nat.add_sub_cancel]


/-- The handle an export of a Blob returns holds the view in the heap the export
leaves, and the Blob handle holds the same Blob, with one more reference. -/
theorem Blob_property_view (accessor : Blob → Nat) (heap : Heap) (pyblob : Nat)
    (rest : List Nat) (n : Nat) (b : Blob)
    (h : heap.objs[pyblob]? = some ⟨n, PyKind.blob b⟩) :
    ∃ heap1, Blob_property accessor heap (pyblob :: rest)
        = (heap1, Outcome.returned (heap.objs.length + 1)) ∧
      heap1.objs.length = heap.objs.length + 2 ∧
      heap1.objs[pyblob]? = some ⟨n + 1, PyKind.blob b⟩ ∧
      heap1.objs[heap.objs.length]?
        = some ⟨0, PyKind.ndarray ⟨NPY_ARRAY_CARRAY, NPY_DTYPE, [], accessor b, none⟩⟩ ∧
      heap1.objs[heap.objs.length + 1]?
        = some ⟨1, PyKind.ndarray ⟨NPY_ARRAY_CARRAY, NPY_FLOAT32, b.shape, accessor b,
            some pyblob⟩⟩ ∧
      ∀ o ob, o ≠ pyblob → heap.objs[o]? = some ob → heap1.objs[o]? = some ob := by
  have hlt : pyblob < heap.objs.length := by
    rcases Nat.lt_or_ge pyblob heap.objs.length with h' | h'
    · exact h'
    · rw [List.getElem?_eq_none h'] at h; cases h
  refine ⟨_, Blob_property_eq accessor heap pyblob rest n b h, ?_, ?_, ?_, ?_, ?_⟩
  · simp
  · simp only
    rw [List.getElem?_append_left (by simpa using hlt), List.getElem?_set_self hlt]
  · simp only
    rw [List.getElem?_append_right (by simp)]
    simp
  · simp only
    rw [List.getElem?_append_right (by simp)]
    simp
  · intro o ob hne ho
    have hol : o < heap.objs.length := by
      rcases Nat.lt_or_ge o heap.objs.length with h' | h'
      · exact h'
      · rw [List.getElem?_eq_none h'] at ho; cases ho
    simp only
    rw [List.getElem?_append_left (by simpa using hol), List.getElem?_set_ne (Ne.symm hne), ho]

/-- C7. For a Blob held by a live handle, the export of `data` and the export of
`diff` each return a view over the address the accessor (`mutable_cpu_data`,
`mutable_cpu_diff`) returned, whose number of axes is the Blob's `num_axes` and
whose extents are the Blob's shape.  And when the Blob has just been reshaped to
`d`, two exports in a row, each of `data` or of `diff`, return two different
views that both have the dimensions `d`. -/
theorem Blob_export_view_of_blob (heap : Heap) (pyblob n : Nat) (b : Blob)
    (h : heap.objs[pyblob]? = some ⟨n, PyKind.blob b⟩) :
    (∃ heap1 view arr, Blob_data heap [pyblob] = (heap1, Outcome.returned view) ∧
      heap1.objs[view]? = some ⟨1, PyKind.ndarray arr⟩ ∧
      arr.data = b.mutable_cpu_data ∧ PyArray_NDIM arr = b.num_axes ∧ arr.dims = b.shape) ∧
    (∃ heap1 view arr, Blob_diff heap [pyblob] = (heap1, Outcome.returned view) ∧
      heap1.objs[view]? = some ⟨1, PyKind.ndarray arr⟩ ∧
      arr.data = b.mutable_cpu_diff ∧ PyArray_NDIM arr = b.num_axes ∧ arr.dims = b.shape) ∧
    (∀ (b0 : Blob) (d : List Int) (p q : Nat) (first second : Heap → List Nat → Heap × Outcome Nat),
      b = b0.Reshape d p q → (first = Blob_data ∨ first = Blob_diff) →
      (second = Blob_data ∨ second = Blob_diff) →
      ∃ heap1 view1 heap2 view2 arr1 arr2,
        first heap [pyblob] = (heap1, Outcome.returned view1) ∧
        second heap1 [pyblob] = (heap2, Outcome.returned view2) ∧
        view1 ≠ view2 ∧
        heap2.objs[view1]? = some ⟨1, PyKind.ndarray arr1⟩ ∧
        heap2.objs[view2]? = some ⟨1, PyKind.ndarray arr2⟩ ∧
        arr1.dims = d ∧ arr2.dims = d) := by
  have two : ∀ (acc1 acc2 : Blob → Nat),
      ∃ heap1 view1 heap2 view2 arr1 arr2,
        Blob_property acc1 heap [pyblob] = (heap1, Outcome.returned view1) ∧
        Blob_property acc2 heap1 [pyblob] = (heap2, Outcome.returned view2) ∧
        view1 ≠ view2 ∧
        heap2.objs[view1]? = some ⟨1, PyKind.ndarray arr1⟩ ∧
        heap2.objs[view2]? = some ⟨1, PyKind.ndarray arr2⟩ ∧
        arr1.dims = b.shape ∧ arr2.dims = b.shape := by
    intro acc1 acc2
    obtain ⟨heap1, e1, hlen1, hb1, _, hv1, _⟩ := Blob_property_view acc1 heap pyblob [] n b h
    obtain ⟨heap2, e2, _, _, _, hv2, hkeep⟩ :=
      Blob_property_view acc2 heap1 pyblob [] (n + 1) b hb1
    have hlt : pyblob < heap.objs.length := by
      rcases Nat.lt_or_ge pyblob heap.objs.length with h' | h'
      · exact h'
      · rw [List.getElem?_eq_none h'] at h; cases h
    refine ⟨heap1, _, heap2, _, _, _, e1, e2, ?_, hkeep _ _ ?_ hv1, hv2, rfl, rfl⟩
    · omega
    · omega
  refine ⟨?_, ?_, ?_⟩
  · obtain ⟨heap1, e1, _, _, _, hv1, _⟩ :=
      Blob_property_view Blob.mutable_cpu_data heap pyblob [] n b h
    exact ⟨heap1, _, _, e1, hv1, rfl, rfl, rfl⟩
  · obtain ⟨heap1, e1, _, _, _, hv1, _⟩ :=
      Blob_property_view Blob.mutable_cpu_diff heap pyblob [] n b h
    exact ⟨heap1, _, _, e1, hv1, rfl, rfl, rfl⟩
  · intro b0 d p q first second hb hf hs
    have hd : b.shape = d := by rw [hb]; rfl
    rw [← hd]
    rcases hf with rfl | rfl <;> rcases hs with rfl | rfl
    · exact two Blob.mutable_cpu_data Blob.mutable_cpu_data
    · exact two Blob.mutable_cpu_data Blob.mutable_cpu_diff
    · exact two Blob.mutable_cpu_diff Blob.mutable_cpu_data
    · exact two Blob.mutable_cpu_diff Blob.mutable_cpu_diff

/-- C10. For an export (`data` or `diff`) of a Blob held by a live handle: when
it has returned, the temporary array, which has no dimensions, is released (its
reference count is 0), the base object of the returned view is the Blob handle,
and the reference count of the Blob handle is one more than before the export. -/
theorem Blob_export_holds_blob (heap : Heap) (pyblob n : Nat) (b : Blob)
    (getter : Heap → List Nat → Heap × Outcome Nat)
    (h : heap.objs[pyblob]? = some ⟨n, PyKind.blob b⟩)
    (he : getter = Blob_data ∨ getter = Blob_diff) :
    ∃ heap1 view arr tmp,
      getter heap [pyblob] = (heap1, Outcome.returned view) ∧
      heap1.objs[heap.objs.length]? = some ⟨0, PyKind.ndarray tmp⟩ ∧ tmp.dims = [] ∧
      view ≠ heap.objs.length ∧
      heap1.objs[view]? = some ⟨1, PyKind.ndarray arr⟩ ∧ arr.base = some pyblob ∧
      heap1.refcnt pyblob = heap.refcnt pyblob + 1 := by
  have one : ∀ (acc : Blob → Nat),
      ∃ heap1 view arr tmp,
        Blob_property acc heap [pyblob] = (heap1, Outcome.returned view) ∧
        heap1.objs[heap.objs.length]? = some ⟨0, PyKind.ndarray tmp⟩ ∧ tmp.dims = [] ∧
        view ≠ heap.objs.length ∧
        heap1.objs[view]? = some ⟨1, PyKind.ndarray arr⟩ ∧ arr.base = some pyblob ∧
        heap1.refcnt pyblob = heap.refcnt pyblob + 1 := by
    intro acc
    obtain ⟨heap1, e1, _, hb1, ht1, hv1, _⟩ := Blob_property_view acc heap pyblob [] n b h
    refine ⟨heap1, _, _, _, e1, ht1, rfl, by omega, hv1, rfl, ?_⟩
    simp only [Heap.refcnt, hb1, h]
  rcases he with rfl | rfl
  · exact one Blob.mutable_cpu_data
  · exact one Blob.mutable_cpu_diff

/-- A use of C7: a 2×3 Blob, just reshaped, behind handle 0. -/
theorem Blob_export_view_of_blob_witness :
    (([⟨1, PyKind.blob ((⟨7, [1], 100, 200⟩ : Blob).Reshape [2, 3] 300 400)⟩] :
        List PyObject)[0]?
      = some ⟨1, PyKind.blob ⟨7, [2, 3], 300, 400⟩⟩) ∧
    ∃ heap1 view arr,
      Blob_data ⟨[⟨1, PyKind.blob ((⟨7, [1], 100, 200⟩ : Blob).Reshape [2, 3] 300 400)⟩]⟩ [0]
        = (heap1, Outcome.returned view) ∧
      heap1.objs[view]? = some ⟨1, PyKind.ndarray arr⟩ ∧
      arr.data = 300 ∧ PyArray_NDIM arr = 2 ∧ arr.dims = [2, 3] :=
  ⟨by decide,
   (Blob_export_view_of_blob
      ⟨[⟨1, PyKind.blob ((⟨7, [1], 100, 200⟩ : Blob).Reshape [2, 3] 300 400)⟩]⟩ 0 1
      ⟨7, [2, 3], 300, 400⟩ (by decide)).1⟩

/-- A use of C10: the export of `diff` of a Blob behind handle 0, which has two
references. -/
theorem Blob_export_holds_blob_witness :
    (([⟨2, PyKind.blob ⟨7, [2, 3], 300, 400⟩⟩] : List PyObject)[0]?
        = some ⟨2, PyKind.blob ⟨7, [2, 3], 300, 400⟩⟩ ∧
      (Blob_diff = Blob_data ∨ Blob_diff = Blob_diff)) ∧
    ∃ heap1 view arr tmp,
      Blob_diff ⟨[⟨2, PyKind.blob ⟨7, [2, 3], 300, 400⟩⟩]⟩ [0]
        = (heap1, Outcome.returned view) ∧
      heap1.objs[1]? = some ⟨0, PyKind.ndarray tmp⟩ ∧ tmp.dims = [] ∧
      view ≠ 1 ∧
      heap1.objs[view]? = some ⟨1, PyKind.ndarray arr⟩ ∧ arr.base = some 0 ∧
      heap1.refcnt 0 = 2 + 1 :=
  ⟨⟨by decide, Or.inr rfl⟩,
   Blob_export_holds_blob ⟨[⟨2, PyKind.blob ⟨7, [2, 3], 300, 400⟩⟩]⟩ 0 2
      ⟨7, [2, 3], 300, 400⟩ Blob_diff (by decide) (Or.inr rfl)⟩

/-! ## Properties of Blob_Reshape -/

/-- Storing at index `k` and keeping the `k + 1` first entries: the `k` first
entries, then the entry stored. -/
theorem take_succ_set_eq {α : Type} (a : α) :
    ∀ (l : List α) (k : Nat), k < l.length → (l.set k a).take (k + 1) = l.take k ++ [a]
  | [], k, h => by simp at h
  | x :: xs, 0, _ => by simp
  | x :: xs, k + 1, h => by
    have hk : k < xs.length := by simpa using h
    simp only [List.set_cons_succ, List.take_succ_cons, List.cons_append,
      take_succ_set_eq a xs k hk]

/-- The loop of `Blob_Reshape`, from index `k + 1` on, over arguments that
convert to the dimensions `ds`, keeps the `k` first entries of `shape` and
stores the dimensions from the `k`-th on after them. -/
theorem Blob_Reshape.loop_eq {π : Type} (extract_int_tp : π → Option Int) (a0 : π)
    (rest : List π) (ds : List Int) (hds : rest.map extract_int_tp = ds.map some) :
    ∀ (remaining k : Nat) (shape : List Int), k + remaining = rest.length →
      shape.length = rest.length →
      Blob_Reshape.loop extract_int_tp (a0 :: rest) remaining (k + 1) shape
        = Outcome.returned (shape.take k ++ ds.drop k) := by
  have hlen : ds.length = rest.length := by
    have := congrArg List.length hds
    simpa using this.symm
  intro remaining
  induction remaining with
  | zero =>
    intro k shape hk hs
    have hk1 : k = shape.length := by omega
    subst hk1
    rw [List.drop_eq_nil_of_le (by omega), List.append_nil, List.take_length]
    rfl
  | succ r ih =>
    intro k shape hk hs
    have hkr : k < rest.length := by omega
    have hkd : k < ds.length := by omega
    have hks : k < shape.length := by omega
    have hex : extract_int_tp rest[k] = some ds[k] := by
      have h1 : (rest.map extract_int_tp)[k]? = (ds.map some)[k]? := by rw [hds]
      simp only [List.getElem?_map, List.getElem?_eq_getElem hkr,
        List.getElem?_eq_getElem hkd, Option.map_some'] at h1
      exact Option.some.inj h1
    have harg : (a0 :: rest)[k + 1]? = some rest[k] := by
      simp only [List.getElem?_cons_succ, List.getElem?_eq_getElem hkr]
    simp only [Blob_Reshape.loop, harg, hex, Nat.add_sub_cancel, hks, if_true]
    rw [ih (k + 1) (shape.set k ds[k]) (by omega) (by simpa using hs),
      take_succ_set_eq ds[k] shape k hks, List.append_assoc, List.singleton_append,
      ← List.drop_eq_getElem_cons hkd]

/-- C8. `Blob_Reshape` with a keyword dictionary that is not empty throws
"Blob.reshape takes no kwargs" and makes no native call, so that the shape of
the Blob is as it was.  With an empty keyword dictionary and positional
arguments `(self, d1, ..., dk)`, `k ≥ 0`, that is, a first argument that
converts to the Blob `self` and further arguments that convert to the
dimensions `d1, ..., dk`, its one native call is `Reshape` on `self` with the
shape `[d1, ..., dk]`, and it ends as that call does. -/
theorem Blob_Reshape_spec {π : Type} (extract_blob : π → Option Nat)
    (extract_int_tp : π → Option Int) (reshape : Nat → List Int → Outcome Unit) :
    (∀ (args : List π) (kwargs : List (String × π)), kwargs ≠ [] →
      Blob_Reshape extract_blob extract_int_tp reshape args kwargs
        = ⟨[], Outcome.runtime_error "Blob.reshape takes no kwargs"⟩) ∧
    (∀ (a0 : π) (rest : List π) (self : Nat) (ds : List Int),
      extract_blob a0 = some self → rest.map extract_int_tp = ds.map some →
      Blob_Reshape extract_blob extract_int_tp reshape (a0 :: rest) []
        = ⟨[NativeCall.Reshape self ds], reshape self ds⟩) := by
  constructor
  · intro args kwargs hk
    have : kwargs.length > 0 := List.length_pos.mpr hk
    simp only [Blob_Reshape, this, if_true]
  · intro a0 rest self ds hself hds
    have hlen : ds.length = rest.length := by
      have := congrArg List.length hds
      simpa using this.symm
    have hloop := Blob_Reshape.loop_eq extract_int_tp a0 rest ds hds rest.length 0
      (List.replicate rest.length 0) (by omega) (by simp)
    simp only [List.take_zero, List.nil_append, List.drop_zero, Nat.zero_add] at hloop
    simp only [Blob_Reshape, List.length_nil, gt_iff_lt, Nat.lt_irrefl, if_false,
      List.getElem?_cons_zero, hself, List.length_cons, Nat.add_sub_cancel, hloop]

/-- A use of C8: the call `blob.reshape(2, 3, 5)` on the Blob at address 7, and the
same call with a keyword argument. -/
theorem Blob_Reshape_spec_witness :
    (([("order", Sum.inl 0)] : List (String × (Int ⊕ Nat))) ≠ [] ∧
      (Sum.inr 7 : Int ⊕ Nat).getRight? = some 7 ∧
      ([Sum.inl 2, Sum.inl 3, Sum.inl 5] : List (Int ⊕ Nat)).map Sum.getLeft?
        = ([2, 3, 5] : List Int).map some) ∧
    Blob_Reshape Sum.getRight? Sum.getLeft? (fun _ _ => Outcome.returned ())
        [Sum.inr 7, Sum.inl 2, Sum.inl 3, Sum.inl 5] [("order", Sum.inl 0)]
      = ⟨[], Outcome.runtime_error "Blob.reshape takes no kwargs"⟩ ∧
    Blob_Reshape Sum.getRight? Sum.getLeft? (fun _ _ => Outcome.returned ())
        [Sum.inr 7, Sum.inl 2, Sum.inl 3, Sum.inl 5] []
      = ⟨[NativeCall.Reshape 7 [2, 3, 5]], Outcome.returned ()⟩ :=
  ⟨by decide,
   (Blob_Reshape_spec Sum.getRight? Sum.getLeft? (fun _ _ => Outcome.returned ())).1
      [Sum.inr 7, Sum.inl 2, Sum.inl 3, Sum.inl 5] [("order", Sum.inl 0)] (by decide),
   (Blob_Reshape_spec Sum.getRight? Sum.getLeft? (fun _ _ => Outcome.returned ())).2
      (Sum.inr 7) [Sum.inl 2, Sum.inl 3, Sum.inl 5] 7 [2, 3, 5] (by decide) (by decide)⟩

/-! ## The exception translator -/

/-- C9 does not hold of the code.  `CheckFile` throws
`std::runtime_error("Could not open file missing.prototxt")`; the translator
registered for `std::exception` writes a line to the standard output, which
with libstdc++ is the `what()` of the sliced copy, "std::exception", and leaves
the error indicator of the host unset: no host error carries the message. -/
theorem exception_translator_loses_message :
    CheckFile only_deploy_opens "missing.prototxt"
        = Outcome.runtime_error "Could not open file missing.prototxt" ∧
      exception_translator libstdcxx_sliced_what "Could not open file missing.prototxt"
          ⟨"", none⟩
        = ⟨"std::exception\n", none⟩ ∧
      ∀ (sliced_what : String → String) (what : String) (host : Host),
        (exception_translator sliced_what what host).error_indicator = host.error_indicator := by
  refine ⟨by decide, by decide, ?_⟩
  intro sliced_what what host
  rfl

/-! ## The two data-injection entry points -/

/-- On a layer that is a `MemoryDataLayer`, reached by its index in the one
function and by its handle in the other, the two entry points run alike: the
same native calls and the same end. -/
theorem Net_SetLayerInputArrays_of_memory_data (bits : Nat) (past_data past_labels : Nat → Int) (net : Net) (index : Int)
    (data_arr labels_arr : PyArrayObject) (md : MemoryDataLayer)
    (hl : layers_at net index = some (Layer.memory_data md)) :
    Net_SetLayerInputArrays bits past_data past_labels net (some (Layer.memory_data md)) data_arr labels_arr
      = Net_SetInputArrays bits past_data past_labels net index data_arr labels_arr := by
  unfold Net_SetLayerInputArrays Net_SetInputArrays
  simp only [hl]

/-- C11 does not hold of the code.  On a layer of the net that is not a
`MemoryDataLayer`, `Net_SetInputArrays` throws "set_input_arrays may only be
called if the first layer is a MemoryDataLayer", while
`Net_SetLayerInputArrays`, which casts the handle without the test its sibling
makes, throws nothing: it uses the layer as a `MemoryDataLayer`, which is
undefined. -/
theorem Net_SetLayerInputArrays_unchecked_cast :
    layers_at ⟨[Layer.other]⟩ 0 = some Layer.other ∧
      Net_SetInputArrays 64 (fun _ => 0) (fun _ => 0) ⟨[Layer.other]⟩ 0
          ⟨1, 11, [4, 3], 4096, none⟩ ⟨1, 11, [4], 8192, none⟩
        = ⟨[], Outcome.runtime_error
            "set_input_arrays may only be called if the first layer is a MemoryDataLayer"⟩ ∧
      Net_SetLayerInputArrays 64 (fun _ => 0) (fun _ => 0) ⟨[Layer.other]⟩ (some Layer.other)
          ⟨1, 11, [4, 3], 4096, none⟩ ⟨1, 11, [4], 8192, none⟩
        = ⟨[], Outcome.undefined⟩ := by
  decide

/-! ## The order of the errors of Net_SetInputArrays -/

/-- On a layer that is not a `MemoryDataLayer`, `Net_SetInputArrays` throws its
first error, whatever the arrays are. -/
theorem Net_SetInputArrays_of_other_layer (bits : Nat) (past_data past_labels : Nat → Int) (net : Net) (index : Int)
    (data_arr labels_arr : PyArrayObject) (hl : layers_at net index = some Layer.other) :
    Net_SetInputArrays bits past_data past_labels net index data_arr labels_arr
      = ⟨[], Outcome.runtime_error
          "set_input_arrays may only be called if the first layer is a MemoryDataLayer"⟩ := by
  unfold Net_SetInputArrays
  simp only [hl]
  rfl

/-- `Net_SetInputArrays` returns exactly when the layer at the index is a
`MemoryDataLayer`, both arrays pass `CheckContiguousArray`, both have the same
leading dimension, and the batch size, which is not zero, divides it. -/
theorem Net_SetInputArrays_returned_iff (bits : Nat) (past_data past_labels : Nat → Int) (net : Net) (index : Int)
    (data_arr labels_arr : PyArrayObject) :
    (Net_SetInputArrays bits past_data past_labels net index data_arr labels_arr).result = Outcome.returned () ↔
      ∃ (md : MemoryDataLayer) (n : Int),
        layers_at net index = some (Layer.memory_data md) ∧
        CheckContiguousArray bits past_data data_arr "data array" md.shape = Outcome.returned () ∧
        CheckContiguousArray bits past_labels labels_arr "labels array" md.label_shape
          = Outcome.returned () ∧
        data_arr.dims[0]? = some n ∧ labels_arr.dims[0]? = some n ∧
        md.batch_size ≠ 0 ∧ md.batch_size ∣ n := by
  constructor
  · intro h
    cases hl : layers_at net index with
    | none => simp [Net_SetInputArrays, hl] at h
    | some l =>
      cases l with
      | other => simp [Net_SetInputArrays, hl] at h
      | memory_data md =>
        by_cases hd : CheckContiguousArray bits past_data data_arr "data array" md.shape
            = Outcome.returned ()
        · by_cases hlab : CheckContiguousArray bits past_labels labels_arr "labels array" md.label_shape
              = Outcome.returned ()
          · cases hn : data_arr.dims[0]? with
            | none => simp [Net_SetInputArrays, hl, hd, hlab, hn] at h
            | some n =>
              cases hm : labels_arr.dims[0]? with
              | none => simp [Net_SetInputArrays, hl, hd, hlab, hn, hm] at h
              | some m =>
                rw [Net_SetInputArrays_of_checked bits past_data past_labels net index data_arr labels_arr md n m
                  hl hd hlab hn hm] at h
                by_cases hnm : n = m
                · subst hnm
                  by_cases hb : md.batch_size = 0
                  · simp [hb] at h
                  · by_cases ht : Int.tmod n md.batch_size = 0
                    · exact ⟨md, n, rfl, hd, hlab, rfl, rfl, hb, Int.dvd_of_tmod_eq_zero ht⟩
                    · simp [hb, ht] at h
                · simp [hnm] at h
          · rw [Net_SetInputArrays_of_labels_failure bits past_data past_labels net index data_arr labels_arr md
              hl hd hlab] at h
            exact absurd h hlab
        · rw [Net_SetInputArrays_of_data_failure bits past_data past_labels net index data_arr labels_arr md
            hl hd] at h
          exact absurd h hd
  · rintro ⟨md, n, hl, hd, hlab, hn, hm, hb, hdvd⟩
    rw [Net_SetInputArrays_of_checked bits past_data past_labels net index data_arr labels_arr md n n
      hl hd hlab hn hm]
    simp [hb, Int.tmod_eq_zero_of_dvd hdvd]

/-- C12 does not hold of the code.  The layer is a `MemoryDataLayer` with data
shape 2×3, and the data array, C-contiguous and float32, is 4×3×0: its
dimension at index 2 matches nothing in the expected shape, yet no error is
reported, for `shape[2]` is read after the vector, the word found there is 0,
and the call returns with the layer reset.  Nor is one of the nine errors
reported for an index outside the layers of the net, or for arrays without
dimensions, whose leading dimension is read though there is none. -/
theorem Net_SetInputArrays_no_error_reported :
    (layers_at ⟨[Layer.memory_data ⟨[2, 3], [2], 2⟩]⟩ 0
        = some (Layer.memory_data ⟨[2, 3], [2], 2⟩) ∧
      ([2, 3] : List Int)[2]? = none ∧
      Net_SetInputArrays 64 (fun _ => 0) (fun _ => 0)
          ⟨[Layer.memory_data ⟨[2, 3], [2], 2⟩]⟩ 0
          ⟨1, 11, [4, 3, 0], 4096, none⟩ ⟨1, 11, [4], 8192, none⟩
        = ⟨[NativeCall.Reset ⟨[2, 3], [2], 2⟩ 4096 8192 4], Outcome.returned ()⟩) ∧
    Net_SetInputArrays 64 (fun _ => 0) (fun _ => 0) ⟨[Layer.memory_data ⟨[2, 3], [2], 2⟩]⟩ 1
        ⟨1, 11, [4, 3], 4096, none⟩ ⟨1, 11, [4], 8192, none⟩
      = ⟨[], Outcome.undefined⟩ ∧
    Net_SetInputArrays 64 (fun _ => 0) (fun _ => 0) ⟨[Layer.memory_data ⟨[2, 3], [2], 2⟩]⟩ 0
        ⟨1, 11, [], 4096, none⟩ ⟨1, 11, [], 8192, none⟩
      = ⟨[], Outcome.undefined⟩ := by
  decide

end caffe
